import Mathlib

/-!
Shallow embedding of `src/cli.py` from the SurveyResponder repository.

The CLI has two subcommands:
* `questions` — list / add / delete lines of a plaintext questions file
  (`cli`, lines 48–84 of `src/cli.py`);
* `run` — validate a run configuration and dispatch to the external
  `SurveyResponder` delegate (`cli`, lines 87–141 of `src/cli.py`).

The questions file is modelled as `Option (List String)`: `none` when the
file does not exist on disk, otherwise the ordered list of its lines
(each element is a line's content without the trailing newline; the file's
raw content is each line followed by `"\n"`).

The unseen delegate (`SurveyResponder.__init__` and
`SurveyResponder.run_write`) is modelled by behaviour parameters that
either succeed or raise a Python exception, so the exception handling of
the `run` path can be analysed for every possible delegate behaviour.
-/

/-- Python `str.isspace` characters relevant to `str.strip()` for ASCII
text: space, tab, newline, carriage return, vertical tab, form feed. -/
def pyIsSpace (c : Char) : Bool :=
  c = ' ' || c = '\t' || c = '\n' || c = '\r' || c = '\x0B' || c = '\x0C'

/-- Embedding of Python `str.strip()`: remove leading and trailing
whitespace characters. -/
def pyStrip (s : String) : String :=
  String.mk (((s.toList.dropWhile pyIsSpace).reverse.dropWhile pyIsSpace).reverse)

/-- Helper for `pySplitComma`, working on the character list. Splitting
keeps empty groups, and the empty list yields one empty group, matching
Python `"".split(",") == [""]`. -/
def splitCommaAux : List Char → List (List Char)
  | [] => [[]]
  | c :: rest =>
    match splitCommaAux rest with
    | [] => [[]]
    | g :: gs => if c = ',' then [] :: g :: gs else (c :: g) :: gs

/-- Embedding of Python `s.split(",")`: split on every comma, keeping
empty fields. -/
def pySplitComma (s : String) : List String :=
  (splitCommaAux s.toList).map fun g => String.mk g

/-- Python truthiness of an optional string argument (`argparse` gives
`None` when the flag is absent): truthy iff present and non-empty. -/
def truthyOptStr : Option String → Bool
  | none => false
  | some s => !(s == "")

/-- Python truthiness of an optional integer argument: truthy iff present
and non-zero. This is the test `elif args.delete:` performs. -/
def truthyOptInt : Option Int → Bool
  | none => false
  | some d => !(d == 0)

/-- Embedding of `os.path.dirname`: the index one past the last `'/'` of
the path (`p.rfind('/') + 1`), encoded so that `0` means "no slash". -/
def rfindSlashSucc : List Char → Nat
  | [] => 0
  | c :: rest =>
    let r := rfindSlashSucc rest
    if r ≠ 0 then r + 1 else if c = '/' then 1 else 0

/-- Embedding of `os.path.dirname` (posix): take everything up to and
including the last slash, then strip trailing slashes unless the head
consists only of slashes. -/
def dirname (p : String) : String :=
  let cs := p.toList
  let head := cs.take (rfindSlashSucc cs)
  if head ≠ [] ∧ head.any (fun c => !(c == '/')) then
    String.mk ((head.reverse.dropWhile (fun c => c == '/')).reverse)
  else
    String.mk head

/-- Modelled from the spec: `load_questions` is imported from the unseen
`SurveyResponder` module (not under `src/`). The spec describes the
questions file as "an ordered sequence of newline-terminated text lines,
each a question string; order is meaningful (line number = 1-based index
shown to users and used for deletion)", so loading returns exactly the
file's lines in order. -/
def load_questions (lines : List String) : List String :=
  lines

/-- Arguments of the `questions` subcommand after `argparse`:
`--file` (defaults to `questions.txt`), and the mutually exclusive
`--list` / `--add` / `--delete`. -/
structure QArgs where
  file : String
  listFlag : Bool
  add : Option String
  delete : Option Int
deriving DecidableEq, Repr

/-- Observable outcome of one `questions` invocation: the process exit
code (`0` for a normal return, `1` for `sys.exit(1)`), the state of the
questions file afterwards (`none` if it still does not exist), and the
lines printed to stdout and stderr. -/
structure QOutcome where
  exitCode : Nat
  fileAfter : Option (List String)
  stdout : List String
  stderr : List String
deriving DecidableEq, Repr

/-- Format of one listed question: `print(f"{i}. {question}")`. -/
def formatQuestion (p : Nat × String) : String :=
  toString p.1 ++ ". " ++ p.2

/-- The dispatch `if args.list / elif args.add / elif args.delete / else`
of the `questions` subcommand (`src/cli.py` lines 59–83), run once the
file is known to exist with content `lines`. -/
def questionsDispatch (lines : List String) (args : QArgs) : QOutcome :=
  if args.listFlag then
    ⟨0, some lines, (List.enumFrom 1 (load_questions lines)).map formatQuestion, []⟩
  else if truthyOptStr args.add then
    let stripped := pyStrip (args.add.getD "")
    ⟨0, some (lines ++ [stripped]), ["Added question: " ++ stripped], []⟩
  else if truthyOptInt args.delete then
    let d := args.delete.getD 0
    let questions := load_questions lines
    let index : Int := d - 1
    if index < 0 ∨ (questions.length : Int) ≤ index then
      ⟨1, some lines, [], ["Invalid line number: " ++ toString d]⟩
    else
      ⟨0, some (questions.eraseIdx index.toNat),
        ["Deleted question: " ++ questions.getD index.toNat ""], []⟩
  else
    ⟨1, some lines, [], ["No action specified. Use --list, --add, or --delete."]⟩

/-- The `questions` subcommand (`src/cli.py` lines 48–84).
`fileOnDisk` is `none` when the file at `args.file` does not exist.
When the file is missing it is created empty if `args.add` is truthy,
otherwise the command exits with status 1. -/
def questionsCmd (fileOnDisk : Option (List String)) (args : QArgs) : QOutcome :=
  match fileOnDisk with
  | none =>
    if truthyOptStr args.add then questionsDispatch [] args
    else ⟨1, none, [], ["Questions file not found: " ++ args.file]⟩
  | some lines => questionsDispatch lines args

/-- Python exception values relevant to the `run` path, partitioned by
which `except` clause of `src/cli.py` lines 128–139 would catch them:
`FileNotFoundError`, `ValueError`, `ConnectionError`, and any other
`Exception` subclass. -/
inductive PyExc where
  | fileNotFound (msg : String)
  | valueError (msg : String)
  | connectionError (msg : String)
  | otherError (msg : String)
deriving DecidableEq, Repr

/-- The data passed to the `SurveyResponder` constructor
(`src/cli.py` lines 119–126). -/
structure Responder where
  questions_path : String
  persona_path : String
  model_name : String
  response_options : Option (List String)
  num_responses : Int
  temperature : ℚ
deriving DecidableEq, Repr

/-- Arguments of the `run` subcommand after `argparse`
(`src/cli.py` lines 19–32). `temperature` is modelled as a rational:
the validation compares it only against the exact constants 0.0 and 2.0. -/
structure RunArgs where
  questions : String
  persona : String
  model : String
  num_responses : Int
  temperature : ℚ
  response_options : Option String
  output : String
deriving DecidableEq, Repr

/-- The body of the parsing loop of `src/cli.py` lines 93–96: strip the
token and append it to the accumulated list when it is non-empty. -/
def parseStep (response_options : List String) (option : String) : List String :=
  let stripped := pyStrip option
  if stripped ≠ "" then response_options ++ [stripped] else response_options

/-- The parsing loop of `src/cli.py` lines 91–96: split the raw
`--response-options` string on commas and run `parseStep` over the
pieces, starting from the empty list. -/
def parseResponseOptionsStr (s : String) : List String :=
  (pySplitComma s).foldl parseStep []

/-- Lines 89–96 of `src/cli.py`: `response_options` starts as `None` and
is replaced by the parsed list only when `args.response_options` is
truthy (present and non-empty). -/
def parseResponseOptions : Option String → Option (List String)
  | none => none
  | some s => if s ≠ "" then some (parseResponseOptionsStr s) else none

/-- The condition of line 113 of `src/cli.py`:
`response_options is not None and len(response_options) <= 2`. -/
def optionsInvalid : Option (List String) → Bool
  | none => false
  | some opts => decide (opts.length ≤ 2)

/-- The condition of line 115 of `src/cli.py`:
`not (0.0 <= args.temperature <= 2.0)`. -/
def temperatureInvalid (t : ℚ) : Bool :=
  !(decide (0 ≤ t) && decide (t ≤ 2))

/-- The record the `SurveyResponder` constructor receives
(`src/cli.py` lines 119–126). -/
def mkResponder (args : RunArgs) (response_options : Option (List String)) : Responder :=
  ⟨args.questions, args.persona, args.model, response_options,
    args.num_responses, args.temperature⟩

/-- The `try` block of `src/cli.py` lines 98–126: the sequence of
validations followed by delegate construction. `fs p = true` means the
path `p` exists on disk. `construct` models the unseen
`SurveyResponder.__init__`: `some e` means it raises exception `e`. -/
def tryBlock (fs : String → Bool) (construct : Responder → Option PyExc)
    (args : RunArgs) : Except PyExc Responder :=
  let response_options := parseResponseOptions args.response_options
  if fs args.questions = false then
    Except.error (PyExc.fileNotFound ("Questions file not found: " ++ args.questions))
  else if fs args.persona = false then
    Except.error (PyExc.fileNotFound ("Persona file not found: " ++ args.persona))
  else if dirname args.output ≠ "" ∧ fs (dirname args.output) = false then
    Except.error (PyExc.fileNotFound ("Output directory does not exist: " ++ dirname args.output))
  else if optionsInvalid response_options = true then
    Except.error (PyExc.valueError "You must provide at least 2 response options.")
  else if temperatureInvalid args.temperature = true then
    Except.error (PyExc.valueError "Temperature must be between 0.0 and 2.0")
  else
    match construct (mkResponder args response_options) with
    | some e => Except.error e
    | none => Except.ok (mkResponder args response_options)

/-- Observable outcome of one `run` invocation:
* `handled cat msg` — an exception was caught by one of the `except`
  clauses, `f"{cat}: {msg}"` was printed to stderr and the process
  exited with status 1 via `sys.exit(1)`;
* `uncaught e` — an exception escaped `cli()` entirely (no categorized
  message; CPython prints a traceback);
* `completed r out` — the delegate `r` was constructed and
  `r.run_write(out)` returned normally (exit status 0). -/
inductive RunOutcome where
  | handled (category : String) (msg : String)
  | uncaught (e : PyExc)
  | completed (r : Responder) (output : String)
deriving DecidableEq, Repr

/-- The `except` clauses of `src/cli.py` lines 128–139, in order:
`FileNotFoundError`, `ValueError`, `ConnectionError`, `Exception`. -/
def handleExc : PyExc → RunOutcome
  | PyExc.fileNotFound m => RunOutcome.handled "File Error" m
  | PyExc.valueError m => RunOutcome.handled "Input Error" m
  | PyExc.connectionError m => RunOutcome.handled "Connection Error" m
  | PyExc.otherError m => RunOutcome.handled "Unexpected Error" m

/-- The `run` subcommand (`src/cli.py` lines 87–141). Note that
`responder.run_write(args.output)` on line 141 sits outside the
`try` statement of lines 98–139, so an exception raised by `run_write`
(modelled by `run_write r out = some e`) is not caught. -/
def runCmd (fs : String → Bool) (construct : Responder → Option PyExc)
    (run_write : Responder → String → Option PyExc) (args : RunArgs) : RunOutcome :=
  match tryBlock fs construct args with
  | Except.error e => handleExc e
  | Except.ok r =>
    match run_write r args.output with
    | some e => RunOutcome.uncaught e
    | none => RunOutcome.completed r args.output

/-- Recognises the outcome "a `File Error` message was printed to stderr
and the process exited with status 1". -/
def isFileError : RunOutcome → Bool
  | RunOutcome.handled cat _ => cat == "File Error"
  | _ => false

/-- A filesystem on which every path exists. -/
def fsAll : String → Bool := fun _ => true

/-- A filesystem on which no path exists. -/
def fsNone : String → Bool := fun _ => false

/-- A delegate constructor that never raises. -/
def constructOk : Responder → Option PyExc := fun _ => none

/-- A delegate whose `run_write` raises a generic exception. -/
def runWriteBoom : Responder → String → Option PyExc :=
  fun _ _ => some (PyExc.otherError "boom")

/-- A delegate whose `run_write` returns normally. -/
def runWriteOk : Responder → String → Option PyExc := fun _ _ => none

/-- The default `run` arguments from the `argparse` defaults. -/
def argsDefault : RunArgs :=
  ⟨"questions.txt", "persona.json", "llama3.1:latest", 10, 1, none, "results.csv"⟩

/-- Default arguments with `--response-options "A,B"` supplied. -/
def argsTwoOpts : RunArgs :=
  { argsDefault with response_options := some "A,B" }

/-- Default arguments with `--response-options ""` supplied. -/
def argsEmptyOpts : RunArgs :=
  { argsDefault with response_options := some "" }

/-- Default arguments with `--temperature 3` supplied. -/
def argsHotTemp : RunArgs :=
  { argsDefault with temperature := 3 }

example : pyStrip "  hi " = "hi" := by decide
example : pySplitComma "A,B,C" = ["A", "B", "C"] := by decide
example : pySplitComma "" = [""] := by decide
example : dirname "results.csv" = "" := by decide
example : dirname "out/results.csv" = "out" := by decide
example : dirname "/results.csv" = "/" := by decide
example : parseResponseOptionsStr "A,B,C" = ["A", "B", "C"] := by decide
example : parseResponseOptionsStr " A , ,B " = ["A", "B"] := by decide
example : runCmd fsAll constructOk runWriteBoom argsDefault
    = RunOutcome.uncaught (PyExc.otherError "boom") := by decide
example : runCmd fsNone constructOk runWriteOk argsDefault
    = RunOutcome.handled "File Error" "Questions file not found: questions.txt" := by decide
example : questionsCmd (some ["q1"]) ⟨"questions.txt", false, some " ", none⟩
    = ⟨0, some ["q1", ""], ["Added question: "], []⟩ := by decide
example : questionsCmd (some ["a", "b"]) ⟨"q.txt", false, none, some 0⟩
    = ⟨1, some ["a", "b"], [], ["No action specified. Use --list, --add, or --delete."]⟩ := by
  decide
example : questionsCmd (some ["a", "b", "c"]) ⟨"q.txt", false, none, some 2⟩
    = ⟨0, some ["a", "c"], ["Deleted question: b"], []⟩ := by decide
example : questionsCmd (some ["a", "b"]) ⟨"q.txt", true, none, none⟩
    = ⟨0, some ["a", "b"], ["1. a", "2. b"], []⟩ := by decide
example : runCmd fsAll constructOk runWriteOk argsTwoOpts
    = RunOutcome.handled "Input Error" "You must provide at least 2 response options." := by
  decide
example : runCmd fsAll constructOk runWriteOk argsHotTemp
    = RunOutcome.handled "Input Error" "Temperature must be between 0.0 and 2.0" := by decide
example : runCmd fsAll constructOk runWriteOk argsEmptyOpts
    = RunOutcome.completed (mkResponder argsEmptyOpts none) "results.csv" := by decide

/-- Auxiliary: the append-accumulating parse loop equals map-then-filter. -/
theorem parse_foldl_eq (l : List String) (acc : List String) :
    l.foldl parseStep acc = acc ++ (l.map pyStrip).filter (fun t => t ≠ "") := by
  induction l generalizing acc with
  | nil => simp
  | cons x xs ih =>
    rw [List.foldl_cons, List.map_cons, List.filter_cons]
    by_cases h : pyStrip x = ""
    · have hstep : parseStep acc x = acc := by simp [parseStep, h]
      rw [hstep, ih]
      simp [h]
    · have hstep : parseStep acc x = acc ++ [pyStrip x] := by simp [parseStep, h]
      rw [hstep, ih]
      simp [h]

/-- Auxiliary: enumerating a list with one element appended. -/
theorem enumFrom_concat {α : Type} (k : Nat) (l : List α) (a : α) :
    List.enumFrom k (l ++ [a]) = List.enumFrom k l ++ [(k + l.length, a)] := by
  induction l generalizing k with
  | nil => simp [List.enumFrom]
  | cons x xs ih =>
    simp only [List.cons_append, List.enumFrom, List.append_eq, ih, List.length_cons]
    have hk : k + 1 + xs.length = k + (xs.length + 1) := by omega
    rw [hk]

/-- C9: with an existing questions file, `--delete 0` is falsy for the
`elif args.delete:` test, so the command falls through to the no-action
branch: it prints the no-action message to stderr, exits with status 1,
and leaves the file unchanged (no invalid-line-number report). -/
theorem delete_zero_is_no_action (path : String) (lines : List String) :
    questionsCmd (some lines) ⟨path, false, none, some 0⟩
      = ⟨1, some lines, [], ["No action specified. Use --list, --add, or --delete."]⟩ := by
  rfl

/-- C2: deleting an out-of-range index (below 1 or above the line count)
from an existing questions file exits with a non-zero status and leaves
the file's contents unchanged. -/
theorem delete_out_of_range (path : String) (lines : List String) (i : Int)
    (h : i < 1 ∨ (lines.length : Int) < i) :
    (questionsCmd (some lines) ⟨path, false, none, some i⟩).exitCode ≠ 0 ∧
    (questionsCmd (some lines) ⟨path, false, none, some i⟩).fileAfter = some lines := by
  by_cases hi : i = 0
  · subst hi
    exact ⟨by simp [questionsCmd, questionsDispatch, truthyOptStr, truthyOptInt],
      by simp [questionsCmd, questionsDispatch, truthyOptStr, truthyOptInt]⟩
  · have ht : truthyOptInt (some i) = true := by
      simp only [truthyOptInt, Bool.not_eq_true', beq_eq_false_iff_ne, ne_eq]
      exact hi
    constructor <;>
    · simp [questionsCmd, questionsDispatch, truthyOptStr, ht, load_questions]
      split
      · simp
      · exfalso
        rename_i hc
        omega

/-- Witness for C2 at a concrete input. -/
theorem delete_out_of_range_witness :
    (questionsCmd (some ["a", "b"]) ⟨"q.txt", false, none, some 5⟩).exitCode ≠ 0 ∧
    (questionsCmd (some ["a", "b"]) ⟨"q.txt", false, none, some 5⟩).fileAfter
      = some ["a", "b"] :=
  delete_out_of_range "q.txt" ["a", "b"] 5 (Or.inr (by decide))

/-- C4: deleting an in-range 1-based index `i` from an existing questions
file succeeds and rewrites the file with exactly line `i` removed, the
remaining lines keeping their original relative order. -/
theorem delete_in_range (path : String) (lines : List String) (i : Nat)
    (h1 : 1 ≤ i) (h2 : i ≤ lines.length) :
    (questionsCmd (some lines) ⟨path, false, none, some (i : Int)⟩).exitCode = 0 ∧
    (questionsCmd (some lines) ⟨path, false, none, some (i : Int)⟩).fileAfter
      = some (lines.take (i - 1) ++ lines.drop i) := by
  have ht : truthyOptInt (some (i : Int)) = true := by
    simp only [truthyOptInt, Bool.not_eq_true', beq_eq_false_iff_ne, ne_eq]
    omega
  have htn : ((i : Int) - 1).toNat = i - 1 := by omega
  have hI : i - 1 + 1 = i := by omega
  have herase : lines.eraseIdx (i - 1) = lines.take (i - 1) ++ lines.drop i := by
    rw [List.eraseIdx_eq_take_drop_succ, hI]
  constructor <;>
  · simp [questionsCmd, questionsDispatch, truthyOptStr, ht, load_questions, htn, herase]
    split
    · exfalso
      rename_i hc
      omega
    · simp

/-- Witness for C4 at a concrete input. -/
theorem delete_in_range_witness :
    (questionsCmd (some ["a", "b", "c"]) ⟨"q.txt", false, none, some (2 : Int)⟩).exitCode = 0 ∧
    (questionsCmd (some ["a", "b", "c"]) ⟨"q.txt", false, none, some (2 : Int)⟩).fileAfter
      = some ((["a", "b", "c"] : List String).take (2 - 1)
          ++ (["a", "b", "c"] : List String).drop 2) :=
  delete_in_range "q.txt" ["a", "b", "c"] 2 (by decide) (by decide)

/-- Counterexample for C3: adding the whitespace-only question `" "`
succeeds and appends a line whose content is the empty string, so the
appended line is not non-empty as the claim states. -/
theorem add_whitespace_appends_empty_line :
    questionsCmd (some ["q1"]) ⟨"questions.txt", false, some " ", none⟩
      = ⟨0, some ["q1", ""], ["Added question: "], []⟩ := by
  decide

/-- C3 (amended): for every non-empty string `s` passed via `--add`, the
command appends exactly one line whose content is `s` stripped of leading
and trailing whitespace (possibly the empty line when `s` is whitespace
only), creating the file first if it does not exist, and a subsequent
`--list` shows the added content at the last 1-based index. -/
theorem add_appends_trimmed_line (path : String) (fileOnDisk : Option (List String))
    (s : String) (hs : s ≠ "") :
    questionsCmd fileOnDisk ⟨path, false, some s, none⟩
      = ⟨0, some (fileOnDisk.getD [] ++ [pyStrip s]),
          ["Added question: " ++ pyStrip s], []⟩
    ∧ ((questionsCmd (some (fileOnDisk.getD [] ++ [pyStrip s]))
          ⟨path, true, none, none⟩).stdout).getLast?
      = some (toString ((fileOnDisk.getD []).length + 1) ++ ". " ++ pyStrip s) := by
  have ht : truthyOptStr (some s) = true := by
    simp only [truthyOptStr, Bool.not_eq_true', beq_eq_false_iff_ne, ne_eq]
    exact hs
  constructor
  · cases fileOnDisk <;> simp [questionsCmd, questionsDispatch, ht]
  · simp [questionsCmd, questionsDispatch, load_questions, enumFrom_concat,
      List.getLast?_concat, formatQuestion, Nat.add_comm]

/-- Witness for the amended C3 at a concrete input. -/
theorem add_appends_trimmed_line_witness :
    questionsCmd (some ["a"]) ⟨"q.txt", false, some " hi ", none⟩
      = ⟨0, some (((some ["a"] : Option (List String)).getD []) ++ [pyStrip " hi "]),
          ["Added question: " ++ pyStrip " hi "], []⟩
    ∧ ((questionsCmd (some (((some ["a"] : Option (List String)).getD [])
          ++ [pyStrip " hi "])) ⟨"q.txt", true, none, none⟩).stdout).getLast?
      = some (toString ((((some ["a"] : Option (List String)).getD [])).length + 1)
          ++ ". " ++ pyStrip " hi ") :=
  add_appends_trimmed_line "q.txt" (some ["a"]) " hi " (by decide)

/-- C5: a non-empty `--response-options` string is parsed by splitting on
commas, stripping each token, and dropping tokens that strip to the empty
string, so every produced label is non-empty; in particular `"A,B,C"`
parses to `["A", "B", "C"]`. -/
theorem response_options_parsing (s : String) (hs : s ≠ "") :
    parseResponseOptions (some s)
      = some (((pySplitComma s).map pyStrip).filter (fun t => t ≠ ""))
    ∧ (∀ t ∈ parseResponseOptionsStr s, t ≠ "")
    ∧ parseResponseOptionsStr "A,B,C" = ["A", "B", "C"] := by
  have h1 : parseResponseOptionsStr s
      = ((pySplitComma s).map pyStrip).filter (fun t => t ≠ "") := by
    simpa [parseResponseOptionsStr] using parse_foldl_eq (pySplitComma s) []
  refine ⟨?_, ?_, by decide⟩
  · simp [parseResponseOptions, hs, h1]
  · intro t htmem
    rw [h1] at htmem
    simpa using (List.mem_filter.mp htmem).2

/-- Witness for C5 at the concrete input `"A,B,C"`. -/
theorem response_options_parsing_witness :
    parseResponseOptions (some "A,B,C")
      = some (((pySplitComma "A,B,C").map pyStrip).filter (fun t => t ≠ ""))
    ∧ (∀ t ∈ parseResponseOptionsStr "A,B,C", t ≠ "")
    ∧ parseResponseOptionsStr "A,B,C" = ["A", "B", "C"] :=
  response_options_parsing "A,B,C" (by decide)

/-- Counterexample for C1: on a run where every validation passes and the
constructor succeeds, an exception raised by the delegate's
`run_write` (line 141 of `src/cli.py`, outside the `try` of lines
98–139) propagates uncaught instead of being reported as
"Unexpected Error". -/
theorem run_write_exception_uncaught :
    runCmd fsAll constructOk runWriteBoom argsDefault
      = RunOutcome.uncaught (PyExc.otherError "boom")
    ∧ runCmd fsAll constructOk runWriteBoom argsDefault
      ≠ RunOutcome.handled "Unexpected Error" "boom" := by
  decide

/-- C1 (amended): every exception raised inside the `try` block — the
validations and the delegate's construction — is caught by the matching
`except` clause, printed with its category prefix ("File Error",
"Input Error", "Connection Error", or "Unexpected Error") and the
process exits with status 1; an exception raised by the delegate's
`run_write` call, which sits outside the `try` block, propagates
uncaught. -/
theorem run_exception_handling (fs : String → Bool)
    (construct : Responder → Option PyExc)
    (run_write : Responder → String → Option PyExc) (args : RunArgs) :
    (∀ m, tryBlock fs construct args = Except.error (PyExc.fileNotFound m) →
      runCmd fs construct run_write args = RunOutcome.handled "File Error" m)
    ∧ (∀ m, tryBlock fs construct args = Except.error (PyExc.valueError m) →
      runCmd fs construct run_write args = RunOutcome.handled "Input Error" m)
    ∧ (∀ m, tryBlock fs construct args = Except.error (PyExc.connectionError m) →
      runCmd fs construct run_write args = RunOutcome.handled "Connection Error" m)
    ∧ (∀ m, tryBlock fs construct args = Except.error (PyExc.otherError m) →
      runCmd fs construct run_write args = RunOutcome.handled "Unexpected Error" m)
    ∧ (∀ r e, tryBlock fs construct args = Except.ok r →
      run_write r args.output = some e →
      runCmd fs construct run_write args = RunOutcome.uncaught e)
    ∧ (∀ r, tryBlock fs construct args = Except.ok r →
      run_write r args.output = none →
      runCmd fs construct run_write args = RunOutcome.completed r args.output) := by
  refine ⟨?_, ?_, ?_, ?_, ?_, ?_⟩
  · intro m hm
    simp [runCmd, hm, handleExc]
  · intro m hm
    simp [runCmd, hm, handleExc]
  · intro m hm
    simp [runCmd, hm, handleExc]
  · intro m hm
    simp [runCmd, hm, handleExc]
  · intro r e hr hw
    simp [runCmd, hr, hw]
  · intro r hr hw
    simp [runCmd, hr, hw]

/-- Witness for the amended C1 at a concrete input: with no files on
disk, the questions-file check raises `FileNotFoundError` and the outcome
is the categorized "File Error" exit. -/
theorem run_exception_handling_witness :
    runCmd fsNone constructOk runWriteOk argsDefault
      = RunOutcome.handled "File Error" "Questions file not found: questions.txt" :=
  (run_exception_handling fsNone constructOk runWriteOk argsDefault).1
    "Questions file not found: questions.txt" rfl

/-- C8: when the questions file is missing, or the persona file is
missing, or the output path has a non-empty directory component that does
not exist, the run exits with status 1 after printing a "File Error"
message, for every possible delegate behaviour — so the delegate is never
constructed and its run-and-write operation is never invoked. -/
theorem run_missing_files_exit (fs : String → Bool) (args : RunArgs)
    (h : fs args.questions = false ∨ fs args.persona = false ∨
      (dirname args.output ≠ "" ∧ fs (dirname args.output) = false)) :
    ∀ construct run_write,
      isFileError (runCmd fs construct run_write args) = true := by
  intro construct run_write
  rcases h with h1 | h2 | h3
  · simp [runCmd, tryBlock, h1, handleExc, isFileError]
  · cases hq : fs args.questions
    · simp [runCmd, tryBlock, hq, handleExc, isFileError]
    · simp [runCmd, tryBlock, hq, h2, handleExc, isFileError]
  · cases hq : fs args.questions
    · simp [runCmd, tryBlock, hq, handleExc, isFileError]
    · cases hp : fs args.persona
      · simp [runCmd, tryBlock, hq, hp, handleExc, isFileError]
      · simp [runCmd, tryBlock, hq, hp, h3.1, h3.2, handleExc, isFileError]

/-- Witness for C8 at a concrete input. -/
theorem run_missing_files_exit_witness :
    isFileError (runCmd fsNone constructOk runWriteOk argsDefault) = true :=
  run_missing_files_exit fsNone argsDefault (Or.inl rfl) constructOk runWriteOk

/-- C6: when the supplied response options parse to 2 or fewer labels,
the run prints the categorized input error and exits with status 1 for
every delegate behaviour (so the delegate is not constructed); when they
parse to more than 2 labels, the length validation passes. -/
theorem response_options_length_validation (fs : String → Bool) (args : RunArgs)
    (opts : List String)
    (hq : fs args.questions = true) (hp : fs args.persona = true)
    (hd : dirname args.output = "" ∨ fs (dirname args.output) = true)
    (hopts : parseResponseOptions args.response_options = some opts) :
    (opts.length ≤ 2 → ∀ construct run_write,
      runCmd fs construct run_write args
        = RunOutcome.handled "Input Error" "You must provide at least 2 response options.")
    ∧ (2 < opts.length →
      optionsInvalid (parseResponseOptions args.response_options) = false) := by
  have hd' : ¬ (dirname args.output ≠ "" ∧ fs (dirname args.output) = false) := by
    rcases hd with h | h <;> simp [h]
  constructor
  · intro hlen construct run_write
    have hinv : optionsInvalid (parseResponseOptions args.response_options) = true := by
      rw [hopts]
      simpa [optionsInvalid] using hlen
    simp [runCmd, tryBlock, hq, hp, hd', hinv, handleExc]
  · intro hlen
    rw [hopts]
    simp only [optionsInvalid, decide_eq_false_iff_not]
    omega

/-- Witness for C6 at the concrete input `--response-options "A,B"`. -/
theorem response_options_length_validation_witness :
    runCmd fsAll constructOk runWriteOk argsTwoOpts
      = RunOutcome.handled "Input Error" "You must provide at least 2 response options." :=
  (response_options_length_validation fsAll argsTwoOpts ["A", "B"] rfl rfl
    (Or.inl (by decide)) (by decide)).1 (by decide) constructOk runWriteOk

/-- C7: a temperature strictly below 0 or strictly above 2 is rejected
with the categorized input error and exit status 1, while the boundary
values 0 and 2 and every value in between pass the temperature
validation. -/
theorem temperature_range_validation (fs : String → Bool) (args : RunArgs)
    (hq : fs args.questions = true) (hp : fs args.persona = true)
    (hd : dirname args.output = "" ∨ fs (dirname args.output) = true)
    (hopt : optionsInvalid (parseResponseOptions args.response_options) = false) :
    ((args.temperature < 0 ∨ 2 < args.temperature) → ∀ construct run_write,
      runCmd fs construct run_write args
        = RunOutcome.handled "Input Error" "Temperature must be between 0.0 and 2.0")
    ∧ (0 ≤ args.temperature → args.temperature ≤ 2 →
      temperatureInvalid args.temperature = false) := by
  have hd' : ¬ (dirname args.output ≠ "" ∧ fs (dirname args.output) = false) := by
    rcases hd with h | h <;> simp [h]
  constructor
  · intro ht construct run_write
    have hinv : temperatureInvalid args.temperature = true := by
      rcases ht with h | h
      · simp [temperatureInvalid, not_le.mpr h]
      · simp [temperatureInvalid, not_le.mpr h]
    simp [runCmd, tryBlock, hq, hp, hd', hopt, hinv, handleExc]
  · intro h0 h2
    simp [temperatureInvalid, h0, h2]

/-- Witness for C7 at the concrete input `--temperature 3`. -/
theorem temperature_range_validation_witness :
    runCmd fsAll constructOk runWriteOk argsHotTemp
      = RunOutcome.handled "Input Error" "Temperature must be between 0.0 and 2.0" :=
  (temperature_range_validation fsAll argsHotTemp rfl rfl (Or.inl (by decide)) rfl).1
    (Or.inr (by decide)) constructOk runWriteOk

/-- C10: supplying `--response-options ""` leaves the parsed response
options as `None` (the empty string is falsy), so the length validation
is skipped and, when all other validations pass and the constructor
succeeds, the delegate is constructed with `response_options = None`. -/
theorem empty_response_options_absent (fs : String → Bool)
    (construct : Responder → Option PyExc) (args : RunArgs)
    (h : args.response_options = some "")
    (hq : fs args.questions = true) (hp : fs args.persona = true)
    (hd : dirname args.output = "" ∨ fs (dirname args.output) = true)
    (ht : temperatureInvalid args.temperature = false)
    (hc : construct (mkResponder args none) = none) :
    parseResponseOptions args.response_options = none
    ∧ optionsInvalid (parseResponseOptions args.response_options) = false
    ∧ tryBlock fs construct args = Except.ok (mkResponder args none)
    ∧ (mkResponder args none).response_options = none := by
  have hd' : ¬ (dirname args.output ≠ "" ∧ fs (dirname args.output) = false) := by
    rcases hd with hcase | hcase <;> simp [hcase]
  have hparse : parseResponseOptions args.response_options = none := by
    simp [h, parseResponseOptions]
  refine ⟨hparse, by simp [hparse, optionsInvalid], ?_, rfl⟩
  simp [tryBlock, hq, hp, hd', hparse, optionsInvalid, ht, hc]

/-- Witness for C10 at the concrete input `--response-options ""`. -/
theorem empty_response_options_absent_witness :
    parseResponseOptions argsEmptyOpts.response_options = none
    ∧ optionsInvalid (parseResponseOptions argsEmptyOpts.response_options) = false
    ∧ tryBlock fsAll constructOk argsEmptyOpts = Except.ok (mkResponder argsEmptyOpts none)
    ∧ (mkResponder argsEmptyOpts none).response_options = none :=
  empty_response_options_absent fsAll constructOk argsEmptyOpts rfl rfl rfl
    (Or.inl (by decide)) (by decide) rfl
